import Mathlib

/-!
Verification development for the spine-phaser plugin.

The embedding models the plugin's own logic (asset-loader protocol in
`SpinePlugin.ts`/`keys.js`, bounds estimators and coordinate helpers in
`SpineGameObject.ts`).  Numeric values are modelled as rationals; the
JavaScript infinities and `NaN` that appear in the bounds accumulators are
modelled explicitly by the `XReal` type.  The external Spine runtime
(skeleton posing, `getBoundsRect`) and the Phaser engine (caches, matrix
inversion) are abstracted as parameters or small state records, exactly at
the call boundaries the plugin uses.
-/

namespace SpinePhaser

/-- A JavaScript number as used by the bounds accumulators: either a finite
value (modelled as a rational), one of the two infinities, or `NaN`. -/
inductive XReal where
  | nan : XReal
  | negInf : XReal
  | posInf : XReal
  | fin : ℚ → XReal
deriving DecidableEq

namespace XReal

/-- JavaScript `Math.min`: `NaN` is absorbing, `-Infinity` is least. -/
def minJ : XReal → XReal → XReal
  | nan, _ => nan
  | _, nan => nan
  | negInf, _ => negInf
  | _, negInf => negInf
  | posInf, b => b
  | a, posInf => a
  | fin a, fin b => fin (min a b)

/-- JavaScript `Math.max`: `NaN` is absorbing, `Infinity` is greatest. -/
def maxJ : XReal → XReal → XReal
  | nan, _ => nan
  | _, nan => nan
  | posInf, _ => posInf
  | _, posInf => posInf
  | negInf, b => b
  | a, negInf => a
  | fin a, fin b => fin (max a b)

/-- JavaScript `+` on numbers: `NaN` absorbing, `Infinity + -Infinity = NaN`. -/
def addJ : XReal → XReal → XReal
  | nan, _ => nan
  | _, nan => nan
  | posInf, negInf => nan
  | negInf, posInf => nan
  | posInf, _ => posInf
  | _, posInf => posInf
  | negInf, _ => negInf
  | _, negInf => negInf
  | fin a, fin b => fin (a + b)

/-- JavaScript unary minus on numbers. -/
def negJ : XReal → XReal
  | nan => nan
  | negInf => posInf
  | posInf => negInf
  | fin a => fin (-a)

/-- JavaScript `-` on numbers. -/
def subJ (a b : XReal) : XReal := addJ a (negJ b)

/-- JavaScript `==` on numbers: `NaN` compares unequal to everything,
including itself. -/
def eqJ : XReal → XReal → Bool
  | nan, _ => false
  | _, nan => false
  | negInf, negInf => true
  | posInf, posInf => true
  | fin a, fin b => decide (a = b)
  | _, _ => false

end XReal

/-- A `{x, y, width, height}` rectangle as produced by `getBoundsRect` and
the bounds providers. -/
structure XRect where
  x : XReal
  y : XReal
  width : XReal
  height : XReal
deriving DecidableEq

/-- The `{x: 0, y: 0, width: 0, height: 0}` degenerate rectangle. -/
def zeroRect : XRect := ⟨.fin 0, .fin 0, .fin 0, .fin 0⟩

/-- The `bounds.width == Number.NEGATIVE_INFINITY ? {0,0,0,0} : bounds`
guard shared by both bounds providers (`SpineGameObject.js`). -/
def collapseRect (r : XRect) : XRect :=
  if r.width.eqJ .negInf then zeroRect else r

/-! ## Coordinate transform helpers (`SpineGameObject.js` lines 160-178) -/

/-- Phaser's 2D affine world transform matrix with components
`a, b, c, d, tx, ty`. -/
structure TransformMatrix where
  a : ℚ
  b : ℚ
  c : ℚ
  d : ℚ
  tx : ℚ
  ty : ℚ

/-- A 2D point with mutable `x`/`y`, modelled functionally. -/
structure Point where
  x : ℚ
  y : ℚ
deriving DecidableEq

/-- The multiply both converters perform:
`point.x = x * a + y * c + tx; point.y = x * b + y * d + ty`. -/
def applyTransform (m : TransformMatrix) (p : Point) : Point :=
  ⟨p.x * m.a + p.y * m.c + m.tx, p.x * m.b + p.y * m.d + m.ty⟩

/-- `SpineGameObject.skeletonToPhaserWorldCoordinates`: applies the node's
world transform to the point. -/
def skeletonToPhaserWorldCoordinates (m : TransformMatrix) (p : Point) : Point :=
  applyTransform m p

/-- Modelled from the spec: the matrix inversion performed by
`transform.invert()` is supplied by the external Phaser engine
(`TransformMatrix.invert`), not by this repository; the spec describes
`toLocal` as computing "the matrix inverse of the same transform".  This is
the exact affine inverse (determinant `n = a*d - b*c`):
`a' = d/n, b' = -b/n, c' = -c/n, d' = a/n, tx' = (c*ty - d*tx)/n,
ty' = -(a*ty - b*tx)/n`. -/
def TransformMatrix.invert (m : TransformMatrix) : TransformMatrix :=
  let n := m.a * m.d - m.b * m.c
  ⟨m.d / n, -m.b / n, -m.c / n, m.a / n,
   (m.c * m.ty - m.d * m.tx) / n, -(m.a * m.ty - m.b * m.tx) / n⟩

/-- `SpineGameObject.phaserWorldCoordinatesToSkeleton`: inverts the world
transform, then performs the identical multiply. -/
def phaserWorldCoordinatesToSkeleton (m : TransformMatrix) (p : Point) : Point :=
  applyTransform m.invert p

/-! ## Bounds providers (`SpineGameObject.js` lines 37-109) -/

/-- The skeleton data a game object's rig was built from, with the external
Spine runtime abstracted at the exact call boundary the bounds providers
use: skin lookup (`data.findSkin(name)`, here only its success is
relevant), animation lookup (`data.findAnimation(name)`, yielding the
animation's `duration`), and the rectangle `skeleton.getBoundsRect()` of a
fresh `new Skeleton(data)` after `setToSetupPose` /
`animationState.apply` / `updateWorldTransform`.  In
`poseBounds skinSel anim`:
`skinSel = none` means no `setSkin` call (default skin), while
`skinSel = some names` means `setSkin` of the `"custom-skin"` merged, in
order, from the named skins that `findSkin` resolved;
`anim = none` means the setup pose with no animation applied, while
`anim = some (name, t)` means the named animation applied at track time
`t`. -/
structure SkeletonData where
  hasSkin : String → Bool
  findAnimation : String → Option ℚ
  poseBounds : Option (List String) → Option (String × ℚ) → XRect

/-- The slice of a `SpineGameObject` the bounds providers read: its bound
skeleton (carrying the data) and whether an animation state is bound. -/
structure GameObject where
  skeleton : Option SkeletonData
  animationState : Option Unit

/-- `SetupPoseBoundsProvider.calculateBounds`: no bound skeleton yields the
all-zero rectangle; otherwise a fresh skeleton from the data is set to the
setup pose, world transforms are updated, and the bounds rectangle is
returned, collapsed to all-zero when its width is negative infinity. -/
def setupPoseCalculateBounds (go : GameObject) : XRect :=
  match go.skeleton with
  | none => zeroRect
  | some d => collapseRect (d.poseBounds none none)

/-- The four running accumulators `minX, minY, maxX, maxY` of the sampling
loop in `SkinsAndAnimationBoundsProvider.calculateBounds`. -/
structure BoundsAcc where
  minX : XReal
  minY : XReal
  maxX : XReal
  maxY : XReal
deriving DecidableEq

/-- The loop's initial accumulators:
`minX = minY = +Infinity`, `maxX = maxY = -Infinity`. -/
def initialAcc : BoundsAcc := ⟨.posInf, .posInf, .negInf, .negInf⟩

/-- One iteration of the sampling loop, at loop index `i`.  The state also
threads the animation state's accumulated track time:
`animationState.update(i > 0 ? this.timeStep : 0)` advances it by
`timeStep` except on the first iteration, and the sample is the bounds
rectangle of the pose at the new time.  `maxX` is updated from the already
updated running `minX` (`maxX = Math.max(maxX, minX + bounds.width)`), and
analogously for `maxY`. -/
def animSampleStep (sample : ℚ → XRect) (timeStep : ℚ)
    (st : ℚ × BoundsAcc) (i : ℕ) : ℚ × BoundsAcc :=
  let t := st.1 + (if 0 < i then timeStep else 0)
  let b := sample t
  let minX := XReal.minJ st.2.minX b.x
  let minY := XReal.minJ st.2.minY b.y
  let maxX := XReal.maxJ st.2.maxX (XReal.addJ minX b.width)
  let maxY := XReal.maxJ st.2.maxY (XReal.addJ minY b.height)
  (t, ⟨minX, minY, maxX, maxY⟩)

/-- `SkinsAndAnimationBoundsProvider.calculateBounds`.  A missing skeleton
or animation state yields the all-zero rectangle.  With a nonempty skin
list a custom skin merged from the resolvable names is set.  If the
configured animation is null or not found in the data, the setup-pose
rectangle is returned (collapsed like the setup-pose provider).  Otherwise
the sampling loop `for (let i = 0; i < steps; i++)` runs with real bound
`steps = Math.max(animation.duration / this.timeStep, 1.0)`; it executes
once per natural number `i` with `(i : ℚ) < steps`, which is `⌈steps⌉₊`
iterations (the C3 theorem records this equivalence). -/
def skinsAndAnimationCalculateBounds (animation : Option String)
    (skins : List String) (timeStep : ℚ) (go : GameObject) : XRect :=
  match go.skeleton, go.animationState with
  | none, _ => zeroRect
  | some _, none => zeroRect
  | some d, some _ =>
    let skinSel : Option (List String) :=
      if skins.isEmpty then none else some (skins.filter d.hasSkin)
    let anim : Option (String × ℚ) :=
      animation.bind fun nm => (d.findAnimation nm).map fun dur => (nm, dur)
    match anim with
    | none => collapseRect (d.poseBounds skinSel none)
    | some (nm, dur) =>
      let steps : ℕ := ⌈max (dur / timeStep) 1⌉₊
      let res := (List.range steps).foldl
        (animSampleStep (fun t => d.poseBounds skinSel (some (nm, t))) timeStep)
        ((0 : ℚ), initialAcc)
      collapseRect ⟨res.2.minX, res.2.minY, XReal.subJ res.2.maxX res.2.minX,
        XReal.subJ res.2.maxY res.2.minY⟩

/-- The running accumulation exactly as the C3 claim words it: a fold over
the samples at indices `0..n-1`, where the sample at index `i` is the pose
at track time `i * timeStep` (elapsed time `0` on the first sample,
`timeStep` on each subsequent one), with
`minX = min(minX, s.x)`, `minY = min(minY, s.y)`,
`maxX = max(maxX, minX + s.width)`, `maxY = max(maxY, minY + s.height)`,
the max corner computed from the updated running min corner. -/
def claimAccum (sample : ℕ → XRect) : ℕ → BoundsAcc
  | 0 => initialAcc
  | n + 1 =>
    let acc := claimAccum sample n
    let b := sample n
    let minX := XReal.minJ acc.minX b.x
    let minY := XReal.minJ acc.minY b.y
    ⟨minX, minY, XReal.maxJ acc.maxX (XReal.addJ minX b.width),
      XReal.maxJ acc.maxY (XReal.addJ minY b.height)⟩

/-! ## Asset loader protocol (`keys.js`, class `SpineAtlasFile`) -/

/-- JavaScript `data.split(/\r\n|\r|\n/)`: cuts the string at every
`\r\n` pair, lone `\r`, or lone `\n`; always yields at least one (possibly
empty) element.  `cur` holds the characters of the current element in
reverse. -/
def splitNewlines : List Char → List Char → List String
  | [], cur => [String.mk cur.reverse]
  | '\r' :: '\n' :: rest, cur => String.mk cur.reverse :: splitNewlines rest []
  | '\r' :: rest, cur => String.mk cur.reverse :: splitNewlines rest []
  | '\n' :: rest, cur => String.mk cur.reverse :: splitNewlines rest []
  | c :: rest, cur => splitNewlines rest (c :: cur)

/-- JavaScript `line.trim() === ''`: the line is empty or whitespace. -/
def trimmedEmpty (s : String) : Bool := s.data.all Char.isWhitespace

/-- The page-image-name scan of `SpineAtlasFile.onFileComplete`
(`keys.js` lines 312-321): `lines[0]` is always taken
(`textures.push(lines[0])`); then for each index `t` from `1` to
`lines.length - 1`, when `lines[t]` trims to the empty string and
`t < lines.length - 1`, `lines[t + 1]` is taken. -/
def pageImageNames (data : String) : List String :=
  let lines := splitNewlines data.data []
  (lines.take 1) ++ ((List.range lines.length).drop 1).filterMap fun t =>
    if trimmedEmpty (lines.getD t "") ∧ t < lines.length - 1 then
      some (lines.getD (t + 1) "")
    else none

/-- JavaScript `file.src.match(/^.*\//)`: the greedy match is the longest
prefix of the source URL ending in `/`, or `null` if there is no slash. -/
def basePathChars : List Char → Option (List Char)
  | [] => none
  | c :: rest =>
    match basePathChars rest with
    | some b => some (c :: b)
    | none => if c = '/' then some [c] else none

/-- `basePath + textures[i]` stringifies the one-element match array to the
matched prefix, and a `null` match to `"null"`. -/
def basePathString (src : String) : String :=
  match basePathChars src.data with
  | some b => String.mk b
  | none => "null"

/-- A page-image download task queued by `onFileComplete`: its loader key
`<atlasKey>!<name>` and its URL `<basePath><name>`. -/
structure ImageTask where
  key : String
  url : String
deriving DecidableEq

/-- The discovery step of `SpineAtlasFile.onFileComplete` for the completed
atlas text file (`keys.js` lines 308-334): scans the atlas text for
page-image names and, for each, builds an image task keyed
`file.key + "!" + textures[i]` with URL `basePath + textures[i]`,
adding it to the multi-file group and the loader queue unless the loader
already knows that key (`loader.keyExists`; tasks queued earlier in the
same loop are visible to later checks, since `loader.addFile` registers
them).  Returns the newly queued tasks and the loader's updated key
table. -/
def onAtlasTextComplete (loaderKeys : List String) (atlasKey src data : String) :
    List ImageTask × List String :=
  (pageImageNames data).foldl
    (fun acc nm =>
      let key := atlasKey ++ "!" ++ nm
      let url := basePathString src ++ nm
      if acc.2.contains key then acc
      else (acc.1 ++ [ImageTask.mk key url], acc.2 ++ [key]))
    ([], loaderKeys)

/-- JavaScript `str.indexOf(sub) >= 0`: `sub` occurs in `str`. -/
def containsStr (str sub : String) : Bool :=
  (List.range (str.data.length + 1)).any fun i =>
    sub.data.isPrefixOf (str.data.drop i)

/-- The two file types of an atlas multi-file group. -/
inductive FileKind where
  | image
  | text
deriving DecidableEq

/-- A completed file of the atlas group as `addToCache` sees it: its
`type`, its loader `key`, and its downloaded `data` (image payloads are
opaque; both are modelled as strings). -/
structure LoadedFile where
  kind : FileKind
  key : String
  data : String
deriving DecidableEq

/-- The value installed into the engine's text cache for the atlas key:
the atlas text and the resolved premultiplied-alpha flag. -/
structure TextCacheEntry where
  data : String
  premultipliedAlpha : Bool
deriving DecidableEq

/-- The engine caches `SpineAtlasFile.addToCache` writes to: the texture
manager (key to image payload) and the text cache. -/
structure CacheState where
  textures : List (String × String)
  textCache : List (String × TextCacheEntry)
deriving DecidableEq

/-- `SpineAtlasFile.addToCache` (`keys.js` lines 335-354): when the group
is ready to process, each image file registers its texture under its own
key unless the texture manager already has that key, and the text file
installs
`{data: file.data, premultipliedAlpha: this.premultipliedAlpha || file.data.indexOf("pma: true") >= 0}`
under its key via `file.addToCache()`.  `premultipliedAlpha` is the flag
supplied at load time (defaulted to `true` when omitted). -/
def atlasAddToCache (premultipliedAlpha : Bool) (readyToProcess : Bool)
    (files : List LoadedFile) (st : CacheState) : CacheState :=
  if readyToProcess then
    files.foldl
      (fun st f =>
        match f.kind with
        | .image =>
          if (st.textures.map Prod.fst).contains f.key then st
          else { st with textures := st.textures ++ [(f.key, f.data)] }
        | .text =>
          { st with textCache := st.textCache ++
              [(f.key,
                ⟨f.data, premultipliedAlpha || containsStr f.data "pma: true"⟩)] })
      st
  else st

/-! ## Skeleton-data memoization (`keys.js` lines 217-238) -/

/-- A Phaser custom cache (`this.skeletonDataCache`), modelled as an
association list; `exists`/`get` are a single lookup here. -/
def cacheLookup {α : Type} (cache : List (String × α)) (k : String) : Option α :=
  (cache.find? fun e => e.1 == k).map Prod.snd

/-- `SpinePlugin.getSkeletonData(dataKey, atlasKey)`: memoizes under
`combinedKey = dataKey + atlasKey` (plain string concatenation).  On a
cache miss the skeleton data is built from the keys — `build` stands for
the external JSON/binary parsing branch (`SkeletonJson`/`SkeletonBinary`
over the atlas fetched by `getAtlas(atlasKey)`, which touches only the
separate atlas cache and is omitted here) — and added under the combined
key.  Returns the data and the updated cache. -/
def getSkeletonData {α : Type} (build : String → String → α)
    (cache : List (String × α)) (dataKey atlasKey : String) :
    α × List (String × α) :=
  let combinedKey := dataKey ++ atlasKey
  match cacheLookup cache combinedKey with
  | some skeletonData => (skeletonData, cache)
  | none =>
    let skeletonData := build dataKey atlasKey
    (skeletonData, cache ++ [(combinedKey, skeletonData)])

/-! ## Per-frame pose update (`SpineGameObject.js` lines 193-199) -/

/-- The five externally visible effects `updatePose` performs. -/
inductive PoseEvent where
  | updateState (delta : ℚ)
  | applyState
  | beforeHook
  | updateWorldTransform
  | afterHook
deriving DecidableEq

/-- The game object's observable update history: the ordered list of
effects performed on its animation state, skeleton, and hooks. -/
structure PoseTrace where
  events : List PoseEvent
deriving DecidableEq

/-- `this.animationState.update(delta)`: advance the animation state's
time by `delta` seconds. -/
def animationStateUpdate (delta : ℚ) (s : PoseTrace) : PoseTrace :=
  ⟨s.events ++ [.updateState delta]⟩

/-- `this.animationState.apply(this.skeleton)`. -/
def animationStateApply (s : PoseTrace) : PoseTrace :=
  ⟨s.events ++ [.applyState]⟩

/-- `this.beforeUpdateWorldTransforms(this)`. -/
def beforeUpdateWorldTransformsHook (s : PoseTrace) : PoseTrace :=
  ⟨s.events ++ [.beforeHook]⟩

/-- `this.skeleton.updateWorldTransform()`. -/
def skeletonUpdateWorldTransform (s : PoseTrace) : PoseTrace :=
  ⟨s.events ++ [.updateWorldTransform]⟩

/-- `this.afterUpdateWorldTransforms(this)`. -/
def afterUpdateWorldTransformsHook (s : PoseTrace) : PoseTrace :=
  ⟨s.events ++ [.afterHook]⟩

/-- `SpineGameObject.updatePose(delta)`: the five calls in source order,
with the millisecond delta converted to seconds (`delta / 1000`). -/
def updatePose (delta : ℚ) (s : PoseTrace) : PoseTrace :=
  afterUpdateWorldTransformsHook
    (skeletonUpdateWorldTransform
      (beforeUpdateWorldTransformsHook
        (animationStateApply
          (animationStateUpdate (delta / 1000) s))))

/-- A small concrete rig used by the witnesses: one skin `"s"`, one
animation `"walk"` of duration `1/10`, and pose-dependent bounds. -/
def demoData : SkeletonData where
  hasSkin := fun nm => decide (nm = "s")
  findAnimation := fun nm => if nm = "walk" then some (1 / 10) else none
  poseBounds := fun _ anim =>
    match anim with
    | none => ⟨.fin 0, .fin 0, .fin 2, .fin 2⟩
    | some (_, t) => ⟨.fin (-t), .fin 0, .fin (1 + t), .fin 1⟩

end SpinePhaser

namespace SpinePhaser

/-- C6: round-trip identity of the coordinate converters.  For every point
and every invertible world transform (determinant nonzero),
`phaserWorldCoordinatesToSkeleton` applied after
`skeletonToPhaserWorldCoordinates` returns the original point. -/
theorem c6_coordinate_roundtrip (m : TransformMatrix) (p : Point)
    (h : m.a * m.d - m.b * m.c ≠ 0) :
    phaserWorldCoordinatesToSkeleton m (skeletonToPhaserWorldCoordinates m p) = p := by
  obtain ⟨a, b, c, d, tx, ty⟩ := m
  obtain ⟨x, y⟩ := p
  simp only [phaserWorldCoordinatesToSkeleton, skeletonToPhaserWorldCoordinates,
    applyTransform, TransformMatrix.invert] at h ⊢
  rw [Point.mk.injEq]
  constructor <;> (field_simp; ring)

/-- Witness for C6: a combined scale+rotation-like+translation transform
(`a=2, b=1, c=1, d=1, tx=3, ty=4`, determinant `1`) round-trips the point
`(5, 7)`. -/
theorem c6_coordinate_roundtrip_witness :
    (2 : ℚ) * 1 - 1 * 1 ≠ 0 ∧
      phaserWorldCoordinatesToSkeleton ⟨2, 1, 1, 1, 3, 4⟩
        (skeletonToPhaserWorldCoordinates ⟨2, 1, 1, 1, 3, 4⟩ ⟨5, 7⟩) = ⟨5, 7⟩ :=
  ⟨by norm_num, c6_coordinate_roundtrip ⟨2, 1, 1, 1, 3, 4⟩ ⟨5, 7⟩ (by norm_num)⟩

/-- The sampling loop with its threaded track time equals the claim-side
accumulation over samples taken at track times `i * timeStep`; after `n ≥ 1`
iterations the track time is `(n - 1) * timeStep`. -/
theorem animLoop_eq_claimAccum (sample : ℚ → XRect) (ts : ℚ) (n : ℕ) :
    (List.range n).foldl (animSampleStep sample ts) ((0 : ℚ), initialAcc) =
      ((if n = 0 then 0 else ((n : ℚ) - 1) * ts),
        claimAccum (fun i => sample ((i : ℚ) * ts)) n) := by
  induction n with
  | zero => simp [claimAccum]
  | succ m ih =>
    rw [List.range_succ, List.foldl_append, List.foldl_cons, List.foldl_nil, ih]
    have h1 : (if m = 0 then (0 : ℚ) else ((m : ℚ) - 1) * ts) +
        (if 0 < m then ts else 0) = (m : ℚ) * ts := by
      rcases m with _ | k
      · norm_num
      · simp only [Nat.succ_ne_zero, if_false, Nat.zero_lt_succ, if_true]
        push_cast
        ring
    have h2 : ((m + 1 : ℕ) : ℚ) - 1 = (m : ℚ) := by push_cast; ring
    simp only [animSampleStep, claimAccum, h1, Nat.succ_ne_zero, if_false, h2]

/-- C3: with a bound skeleton/animation state and an animation found in the
data, the sampling loop of `SkinsAndAnimationBoundsProvider.calculateBounds`
runs once for every natural `i` below `steps = max(duration / timeStep, 1)`
(that is, `⌈steps⌉₊ ≥ 1` iterations); the sample at index `i` is the pose at
track time `i * timeStep` (elapsed time `0` on the first sample, `timeStep`
on each later one), folded with `minX = min(minX, s.x)`,
`minY = min(minY, s.y)`, `maxX = max(maxX, minX + s.width)`,
`maxY = max(maxY, minY + s.height)` — the max corner from the running min
corner — and the result is `{minX, minY, maxX - minX, maxY - minY}`,
collapsed to all-zero when the accumulated width is negative infinity. -/
theorem c3_animation_sampling_loop (nm : String) (skins : List String)
    (timeStep dur : ℚ) (go : GameObject) (d : SkeletonData) (u : Unit)
    (hsk : go.skeleton = some d) (hst : go.animationState = some u)
    (hanim : d.findAnimation nm = some dur) (hts : 0 < timeStep) :
    (∀ i : ℕ, i < ⌈max (dur / timeStep) 1⌉₊ ↔ (i : ℚ) < max (dur / timeStep) 1) ∧
      1 ≤ ⌈max (dur / timeStep) 1⌉₊ ∧
      skinsAndAnimationCalculateBounds (some nm) skins timeStep go =
        (let skinSel : Option (List String) :=
           if skins.isEmpty then none else some (skins.filter d.hasSkin)
         let acc := claimAccum
           (fun i => d.poseBounds skinSel (some (nm, (i : ℚ) * timeStep)))
           ⌈max (dur / timeStep) 1⌉₊
         collapseRect ⟨acc.minX, acc.minY, XReal.subJ acc.maxX acc.minX,
           XReal.subJ acc.maxY acc.minY⟩) := by
  refine ⟨fun i => Nat.lt_ceil, ?_, ?_⟩
  · exact Nat.lt_ceil.mpr (lt_max_iff.mpr (Or.inr zero_lt_one))
  · simp only [skinsAndAnimationCalculateBounds, hsk, hst, Option.some_bind,
      hanim, Option.map_some']
    rw [animLoop_eq_claimAccum]

/-- Witness for C3: the rig `demoData` with animation `"walk"`
(duration `1/10`) and `timeStep = 1/20`, so the loop takes two samples. -/
theorem c3_animation_sampling_loop_witness :
    (GameObject.mk (some demoData) (some ())).skeleton = some demoData ∧
      demoData.findAnimation "walk" = some (1 / 10) ∧ (0 : ℚ) < 1 / 20 ∧
      (∀ i : ℕ, i < ⌈max ((1 / 10 : ℚ) / (1 / 20)) 1⌉₊ ↔
        (i : ℚ) < max ((1 / 10 : ℚ) / (1 / 20)) 1) ∧
      1 ≤ ⌈max ((1 / 10 : ℚ) / (1 / 20)) 1⌉₊ ∧
      skinsAndAnimationCalculateBounds (some "walk") [] (1 / 20)
          (GameObject.mk (some demoData) (some ())) =
        (let skinSel : Option (List String) :=
           if ([] : List String).isEmpty then none
           else some (([] : List String).filter demoData.hasSkin)
         let acc := claimAccum
           (fun i => demoData.poseBounds skinSel (some ("walk", (i : ℚ) * (1 / 20))))
           ⌈max ((1 / 10 : ℚ) / (1 / 20)) 1⌉₊
         collapseRect ⟨acc.minX, acc.minY, XReal.subJ acc.maxX acc.minX,
           XReal.subJ acc.maxY acc.minY⟩) :=
  ⟨rfl, rfl, by norm_num,
    c3_animation_sampling_loop "walk" [] (1 / 20) (1 / 10)
      (GameObject.mk (some demoData) (some ())) demoData () rfl rfl
      rfl (by norm_num)⟩

/-- C4: for a game object with a bound skeleton and animation state,
`SkinsAndAnimationBoundsProvider.calculateBounds` with a null animation
(and the default empty skin list) returns exactly the rectangle
`SetupPoseBoundsProvider.calculateBounds` returns for the same rig. -/
theorem c4_null_animation_matches_setup_pose (timeStep : ℚ) (go : GameObject)
    (d : SkeletonData) (u : Unit) (hsk : go.skeleton = some d)
    (hst : go.animationState = some u) :
    skinsAndAnimationCalculateBounds none [] timeStep go =
      setupPoseCalculateBounds go := by
  simp [skinsAndAnimationCalculateBounds, setupPoseCalculateBounds, hsk, hst]

/-- Witness for C4: on `demoData` both providers return the (non-collapsed)
setup-pose rectangle. -/
theorem c4_null_animation_matches_setup_pose_witness :
    (GameObject.mk (some demoData) (some ())).skeleton = some demoData ∧
      skinsAndAnimationCalculateBounds none [] (1 / 20)
          (GameObject.mk (some demoData) (some ())) =
        setupPoseCalculateBounds (GameObject.mk (some demoData) (some ())) :=
  ⟨rfl, c4_null_animation_matches_setup_pose (1 / 20)
    (GameObject.mk (some demoData) (some ())) demoData () rfl rfl⟩

/-- C7: with no bound skeleton, both bounds providers return the all-zero
rectangle; with no bound animation state, the animation-sampling provider
does as well. -/
theorem c7_unbound_node_zero_rect (animation : Option String)
    (skins : List String) (timeStep : ℚ) (go : GameObject) :
    (go.skeleton = none →
        setupPoseCalculateBounds go = zeroRect ∧
        skinsAndAnimationCalculateBounds animation skins timeStep go = zeroRect) ∧
      (go.animationState = none →
        skinsAndAnimationCalculateBounds animation skins timeStep go = zeroRect) := by
  constructor
  · intro h
    constructor
    · simp [setupPoseCalculateBounds, h]
    · simp [skinsAndAnimationCalculateBounds, h]
  · intro h
    cases hsk : go.skeleton <;>
      simp [skinsAndAnimationCalculateBounds, h, hsk]

/-- Witness for C7: the fully unbound game object. -/
theorem c7_unbound_node_zero_rect_witness :
    setupPoseCalculateBounds (GameObject.mk none none) = zeroRect ∧
      skinsAndAnimationCalculateBounds (some "walk") [] (1 / 20)
        (GameObject.mk none none) = zeroRect :=
  ((c7_unbound_node_zero_rect (some "walk") [] (1 / 20)
    (GameObject.mk none none)).1 rfl)

/-- C10: when the configured animation name is not found in the data
(`findAnimation` returns null), `calculateBounds` returns exactly what it
returns for a null animation — the setup-pose rectangle for the same skin
selection (collapsed to all-zero when the extent is negative infinity). -/
theorem c10_unknown_animation_falls_back_to_setup (nm : String)
    (skins : List String) (timeStep : ℚ) (go : GameObject) (d : SkeletonData)
    (hsk : go.skeleton = some d) (hanim : d.findAnimation nm = none) :
    skinsAndAnimationCalculateBounds (some nm) skins timeStep go =
      skinsAndAnimationCalculateBounds none skins timeStep go ∧
      (go.animationState.isSome →
        skinsAndAnimationCalculateBounds (some nm) skins timeStep go =
          collapseRect (d.poseBounds
            (if skins.isEmpty then none else some (skins.filter d.hasSkin))
            none)) := by
  constructor
  · cases hst : go.animationState <;>
      simp [skinsAndAnimationCalculateBounds, hsk, hst, hanim]
  · intro h
    cases hst : go.animationState with
    | none => rw [hst] at h; simp at h
    | some u => simp [skinsAndAnimationCalculateBounds, hsk, hst, hanim]

/-- Witness for C10: `demoData` has no animation named `"missing"`. -/
theorem c10_unknown_animation_falls_back_to_setup_witness :
    demoData.findAnimation "missing" = none ∧
      skinsAndAnimationCalculateBounds (some "missing") ["s"] (1 / 20)
          (GameObject.mk (some demoData) (some ())) =
        skinsAndAnimationCalculateBounds none ["s"] (1 / 20)
          (GameObject.mk (some demoData) (some ())) :=
  ⟨rfl,
    (c10_unknown_animation_falls_back_to_setup "missing" ["s"] (1 / 20)
      (GameObject.mk (some demoData) (some ())) demoData rfl
      rfl).1⟩

/-- C1 counterexample: loading with explicit `premultipliedAlpha = false`
an atlas whose text contains the substring `"pma: true"` installs the
cached flag `true`, not the `false` the claim requires — `addToCache`
resolves the flag as
`this.premultipliedAlpha || file.data.indexOf("pma: true") >= 0`, so the
in-band marker overrides the explicit `false`. -/
theorem c1_explicit_pma_counterexample :
    ¬ ((atlasAddToCache false true
          [LoadedFile.mk .text "atlas" "page.png\npma: true"]
          (CacheState.mk [] [])).textCache =
        [("atlas", TextCacheEntry.mk "page.png\npma: true" false)]) ∧
      (atlasAddToCache false true
          [LoadedFile.mk .text "atlas" "page.png\npma: true"]
          (CacheState.mk [] [])).textCache =
        [("atlas", TextCacheEntry.mk "page.png\npma: true" true)] := by
  constructor
  · decide
  · decide

/-- C1 amended: the premultiplied-alpha flag installed into the text cache
by the atlas job's `addToCache` is `explicitFlag OR (atlas text contains
"pma: true")`.  An explicit `true` always wins, but an explicit `false` is
overridden whenever the atlas text carries the in-band marker: the marker,
not the explicit config, decides in that case. -/
theorem c1_pma_resolution (explicitFlag : Bool) (atlasKey text : String)
    (st : CacheState) :
    (atlasAddToCache explicitFlag true [LoadedFile.mk .text atlasKey text]
        st).textCache =
      st.textCache ++
        [(atlasKey,
          TextCacheEntry.mk text (explicitFlag || containsStr text "pma: true"))] := by
  simp [atlasAddToCache]

/-- C2 counterexample: on the claim's payload
`"page1.png\n\nsize:100,100\n...\n\npage2.png\n\n..."` the completion
handler discovers four image tasks, not two: the blank line right after
`page1.png` makes the scanner take `size:100,100` for a page-image
filename, and the final blank line (not last in the file) makes it take
the trailing `...` line as well. -/
theorem c2_two_pages_counterexample :
    ((onAtlasTextComplete [] "atlas" "assets/demo.atlas"
        "page1.png\n\nsize:100,100\n...\n\npage2.png\n\n...").1.map
          ImageTask.key =
      ["atlas!page1.png", "atlas!size:100,100", "atlas!page2.png",
        "atlas!..."]) ∧
      ((onAtlasTextComplete [] "atlas" "assets/demo.atlas"
          "page1.png\n\nsize:100,100\n...\n\npage2.png\n\n...").1.length ≠ 2) := by
  constructor
  · decide
  · decide

/-- C2 amended: for an atlas text whose page blocks are separated by a
blank line but with no blank line directly after a page filename and no
trailing blank-line block —
`"page1.png\nsize:100,100\n...\n\npage2.png\n..."` — the handler discovers
exactly two page-image tasks, `page1.png` and `page2.png`, keyed
`atlas!<name>` and with URLs resolved against the base path of the atlas
file's own source URL (its prefix up to and including the last `/`). -/
theorem c2_two_pages_amended :
    onAtlasTextComplete [] "atlas" "assets/demo.atlas"
        "page1.png\nsize:100,100\n...\n\npage2.png\n..." =
      ([ImageTask.mk "atlas!page1.png" "assets/page1.png",
        ImageTask.mk "atlas!page2.png" "assets/page2.png"],
        ["atlas!page1.png", "atlas!page2.png"]) := by
  decide

/-- C5: two separately loaded atlases with distinct keys that reference
the same page-image filename get two distinct image keys
`<atlasKey>!<name>`; processing the second atlas after the first still
queues its own image task (the key-exists check does not skip it), and
`addToCache` registers both textures. -/
theorem c5_distinct_atlas_keys_no_collision
    (keyA keyB srcA srcB dataA dataB f imgA imgB : String)
    (pmaA pmaB : Bool) (hne : keyA ≠ keyB)
    (hpA : pageImageNames dataA = [f]) (hpB : pageImageNames dataB = [f]) :
    keyA ++ "!" ++ f ≠ keyB ++ "!" ++ f ∧
      (onAtlasTextComplete [] keyA srcA dataA).1 =
        [ImageTask.mk (keyA ++ "!" ++ f) (basePathString srcA ++ f)] ∧
      (onAtlasTextComplete (onAtlasTextComplete [] keyA srcA dataA).2
          keyB srcB dataB).1 =
        [ImageTask.mk (keyB ++ "!" ++ f) (basePathString srcB ++ f)] ∧
      (atlasAddToCache pmaB true
          [LoadedFile.mk .image (keyB ++ "!" ++ f) imgB]
          (atlasAddToCache pmaA true
            [LoadedFile.mk .image (keyA ++ "!" ++ f) imgA]
            (CacheState.mk [] []))).textures =
        [(keyA ++ "!" ++ f, imgA), (keyB ++ "!" ++ f, imgB)] := by
  have hkey : keyA ++ "!" ++ f ≠ keyB ++ "!" ++ f := by
    intro h
    apply hne
    apply String.ext
    have hd := congrArg String.data h
    simp only [String.data_append] at hd
    exact List.append_cancel_right (List.append_cancel_right hd)
  have hb : ((keyB ++ "!" ++ f) == (keyA ++ "!" ++ f)) = false :=
    beq_eq_false_iff_ne.mpr (Ne.symm hkey)
  refine ⟨hkey, ?_, ?_, ?_⟩
  · simp [onAtlasTextComplete, hpA]
  · simp [onAtlasTextComplete, hpA, hpB, List.contains_cons, hb]
    rw [if_neg (Ne.symm hkey)]
  · simp [atlasAddToCache]
    rw [if_neg (Ne.symm hkey)]

/-- Witness for C5: atlas keys `"atlasA"`/`"atlasB"` both referencing the
one-page atlas text `"sheet.png"`. -/
theorem c5_distinct_atlas_keys_no_collision_witness :
    ("atlasA" : String) ≠ "atlasB" ∧
      pageImageNames "sheet.png" = ["sheet.png"] ∧
      ("atlasA" ++ "!" ++ "sheet.png" ≠ "atlasB" ++ "!" ++ "sheet.png" ∧
        (onAtlasTextComplete [] "atlasA" "a/x.atlas" "sheet.png").1 =
          [ImageTask.mk ("atlasA" ++ "!" ++ "sheet.png")
            (basePathString "a/x.atlas" ++ "sheet.png")] ∧
        (onAtlasTextComplete
            (onAtlasTextComplete [] "atlasA" "a/x.atlas" "sheet.png").2
            "atlasB" "b/y.atlas" "sheet.png").1 =
          [ImageTask.mk ("atlasB" ++ "!" ++ "sheet.png")
            (basePathString "b/y.atlas" ++ "sheet.png")] ∧
        (atlasAddToCache false true
            [LoadedFile.mk .image ("atlasB" ++ "!" ++ "sheet.png") "imgB"]
            (atlasAddToCache true true
              [LoadedFile.mk .image ("atlasA" ++ "!" ++ "sheet.png") "imgA"]
              (CacheState.mk [] []))).textures =
          [("atlasA" ++ "!" ++ "sheet.png", "imgA"),
            ("atlasB" ++ "!" ++ "sheet.png", "imgB")]) :=
  ⟨by decide, rfl,
    c5_distinct_atlas_keys_no_collision "atlasA" "atlasB" "a/x.atlas"
      "b/y.atlas" "sheet.png" "sheet.png" "sheet.png" "imgA" "imgB"
      true false (by decide) rfl rfl⟩

/-- C8: every `updatePose(delta)` call performs exactly the five effects,
in source order — advance the animation state's time by `delta / 1000`
seconds, apply the animation state to the skeleton, invoke the
before-world-transforms hook, recompute the skeleton's world transforms,
invoke the after-world-transforms hook — none skipped or reordered. -/
theorem c8_update_pose_effect_order (delta : ℚ) (s : PoseTrace) :
    (updatePose delta s).events =
      s.events ++ [.updateState (delta / 1000), .applyState, .beforeHook,
        .updateWorldTransform, .afterHook] := by
  simp [updatePose, animationStateUpdate, animationStateApply,
    beforeUpdateWorldTransformsHook, skeletonUpdateWorldTransform,
    afterUpdateWorldTransformsHook]

/-- C9: `getSkeletonData` memoizes under the plain string concatenation
`dataKey + atlasKey`, so two distinct key pairs whose concatenations
coincide alias the same cache slot: after a first call with `(d1, a1)`, a
call with `(d2, a2)` returns the entry built from `(d1, a1)` and builds
nothing from its own keys (the cache is unchanged). -/
theorem c9_combined_key_aliasing {α : Type} (build : String → String → α)
    (cache : List (String × α)) (d1 a1 d2 a2 : String)
    (hconcat : d1 ++ a1 = d2 ++ a2)
    (hmiss : cacheLookup cache (d1 ++ a1) = none) :
    (getSkeletonData build cache d1 a1).1 = build d1 a1 ∧
      (getSkeletonData build (getSkeletonData build cache d1 a1).2 d2 a2).1 =
        build d1 a1 ∧
      (getSkeletonData build (getSkeletonData build cache d1 a1).2 d2 a2).2 =
        (getSkeletonData build cache d1 a1).2 := by
  have hfind : cache.find? (fun e => e.1 == d1 ++ a1) = none :=
    Option.map_eq_none.mp hmiss
  have e1 : getSkeletonData build cache d1 a1 =
      (build d1 a1, cache ++ [(d1 ++ a1, build d1 a1)]) := by
    unfold getSkeletonData
    dsimp only
    rw [hmiss]
  have hlook2 : cacheLookup (cache ++ [(d1 ++ a1, build d1 a1)]) (d2 ++ a2) =
      some (build d1 a1) := by
    rw [← hconcat]
    unfold cacheLookup
    rw [List.find?_append, hfind]
    simp
  have e2 : getSkeletonData build (cache ++ [(d1 ++ a1, build d1 a1)]) d2 a2 =
      (build d1 a1, cache ++ [(d1 ++ a1, build d1 a1)]) := by
    unfold getSkeletonData
    dsimp only
    rw [hlook2]
  rw [e1, e2]
  exact ⟨rfl, rfl, rfl⟩

/-- Witness for C9: the distinct pairs `("ab", "c")` and `("a", "bc")`
share the concatenation `"abc"`; with the builder returning its data key,
the second call yields `"ab"` — the first pair's data — although building
from its own keys would yield `"a"`. -/
theorem c9_combined_key_aliasing_witness :
    ("ab" ++ "c" : String) = "a" ++ "bc" ∧
      cacheLookup ([] : List (String × String)) ("ab" ++ "c") = none ∧
      (("ab", "c") ≠ ("a", "bc")) ∧
      ((fun d _ => d : String → String → String) "a" "bc" ≠
        (fun d _ => d : String → String → String) "ab" "c") ∧
      (getSkeletonData (fun d _ => d) ([] : List (String × String))
        "ab" "c").1 = "ab" ∧
      (getSkeletonData (fun d _ => d)
          (getSkeletonData (fun d _ => d) ([] : List (String × String))
            "ab" "c").2 "a" "bc").1 = "ab" :=
  ⟨rfl, rfl, by decide, by decide,
    (c9_combined_key_aliasing (fun d _ => d) [] "ab" "c" "a" "bc" rfl rfl).1,
    (c9_combined_key_aliasing (fun d _ => d) [] "ab" "c" "a" "bc" rfl rfl).2.1⟩

end SpinePhaser
